import Mathlib

/-!
Verification of the Google Books harvesting and Zotero-conversion scripts.

Part 1 models the per-author pagination loop of
`fetch_all_books_for_author` in `gbooks_json_all-authors.py` (the same
loop appears inline in `gbooks_json-1author.py`).  The network is
modelled as an ordered list of upstream responses; each HTTP request
issued by the loop consumes the next response in the list.  Running out
of responses behaves like a transport failure (the `requests` exception
branch).  Request URLs are modelled by the `(startIndex, maxResults)`
pair that the loop embeds in each URL, since the remaining URL parts are
constant for one author.

Part 2 models the classification and field-mapping pipeline of
`GoogleBooksToZoteroParser` in `parser_test.py`.
-/

namespace GBooks

/-- Model of one upstream HTTP response: either a parsed body carrying
`totalItems` and `items` (absent keys default to `0` / `[]`, as with
`current_data.get`), or a transport failure (a `requests` exception). -/
inductive Response (α : Type) where
  | ok (totalItems : Nat) (items : List α)
  | fail
deriving DecidableEq

/-- Model of the rescue block (`gbooks_json_all-authors.py` lines 97-110):
the rescue request consumes the next pending response; its `items` are
returned, with `[]` when the rescue fails or no response is available. -/
def rescueItems {α : Type} : List (Response α) → List α
  | Response.ok _ ritems :: _ => ritems
  | _ => []

/-- Mutable state of the pagination loop at the point it terminates:
`all_items`, `request_count`, `request_urls` (as offset/limit pairs) and
`initial_total_estimate` from `fetch_all_books_for_author`. -/
structure FetchState (α : Type) where
  allItems : List α
  requestCount : Nat
  requestUrls : List (Nat × Nat)
  initialTotalEstimate : Nat
deriving DecidableEq

/-- Model of the `while True` pagination loop of
`fetch_all_books_for_author` (`gbooks_json_all-authors.py` lines 64-123).
Each iteration increments `request_count`, appends the page URL, then:
transport failure breaks; `totalItems == 0` breaks; an empty item list
with nonzero total triggers the single rescue request and breaks; a
partial page breaks after appending; otherwise the offset advances by
the batch size and the loop repeats. -/
def fetchGo {α : Type} (batchSize : Nat) (responses : List (Response α))
    (allItems : List α) (startIndex requestCount : Nat)
    (requestUrls : List (Nat × Nat)) (initialTotalEstimate : Nat) :
    FetchState α :=
  let rc := requestCount + 1
  let urls := requestUrls ++ [(startIndex, batchSize)]
  match responses with
  | [] => ⟨allItems, rc, urls, initialTotalEstimate⟩
  | Response.fail :: _ => ⟨allItems, rc, urls, initialTotalEstimate⟩
  | Response.ok currentTotal currentItems :: rest =>
    let initTot := if rc = 1 then currentTotal else initialTotalEstimate
    if currentTotal = 0 then
      ⟨allItems, rc, urls, initTot⟩
    else if currentItems.length = 0 then
      ⟨allItems ++ rescueItems rest, rc,
       urls ++ [(startIndex, currentTotal)], initTot⟩
    else if currentItems.length < batchSize then
      ⟨allItems ++ currentItems, rc, urls, initTot⟩
    else
      fetchGo batchSize rest (allItems ++ currentItems)
        (startIndex + batchSize) rc urls initTot

/-- Model of the `final_data` dictionary assembled by
`fetch_all_books_for_author` (lines 126-134): `getRequest`,
`_requestUrls`, `_totalQueriedItems`, `_totalFetchedItems`,
`_totalRequestsMade`, `_batchSizeUsed` and `items`. -/
structure ConsolidatedResult (α : Type) where
  getRequest : Option (Nat × Nat)
  requestUrls : List (Nat × Nat)
  totalQueriedItems : Nat
  totalFetchedItems : Nat
  totalRequestsMade : Nat
  batchSize : Nat
  items : List α
deriving DecidableEq

/-- Model of `fetch_all_books_for_author`: run the pagination loop from
the initial state (`all_items = []`, `start_index = 0`,
`request_count = 0`, `request_urls = []`, `initial_total_estimate = 0`)
and package the final state. -/
def fetch_all_books_for_author {α : Type} (batchSize : Nat)
    (responses : List (Response α)) : ConsolidatedResult α :=
  let s := fetchGo batchSize responses [] 0 0 [] 0
  { getRequest := s.requestUrls.head?
    requestUrls := s.requestUrls
    totalQueriedItems := s.initialTotalEstimate
    totalFetchedItems := s.allItems.length
    totalRequestsMade := s.requestCount
    batchSize := batchSize
    items := s.allItems }

/-- Claim C1, counterexample.  A run with one empty first page
(advertised total 7) followed by a successful rescue returning 7 items
reports `_totalRequestsMade = 1`, not 2: the rescue request is appended
to `request_urls` but `request_count` is only incremented at the top of
the loop, so the rescue attempt is not counted. -/
theorem C1_counterexample :
    (fetch_all_books_for_author 20
      [Response.ok 7 ([] : List Nat),
       Response.ok 7 [1, 2, 3, 4, 5, 6, 7]]).totalRequestsMade = 1 ∧
    (fetch_all_books_for_author 20
      [Response.ok 7 ([] : List Nat),
       Response.ok 7 [1, 2, 3, 4, 5, 6, 7]]).totalRequestsMade ≠ 2 ∧
    (fetch_all_books_for_author 20
      [Response.ok 7 ([] : List Nat),
       Response.ok 7 [1, 2, 3, 4, 5, 6, 7]]).items.length = 7 ∧
    (fetch_all_books_for_author 20
      [Response.ok 7 ([] : List Nat),
       Response.ok 7 [1, 2, 3, 4, 5, 6, 7]]).requestUrls.length = 2 := by
  refine ⟨rfl, by decide, rfl, rfl⟩

/-- Claim C1, amended.  When a rescue is issued, the `requestCount`
reported in the ConsolidatedResult counts only the regular page requests
issued by the loop, excluding the rescue attempt; the rescue request is
recorded in `allRequestDescriptors` only.  A run of one empty first page
(advertised total `total > 0`) plus one rescue reports
`requestCount = 1` while the request log holds both the page request and
the rescue request, and the rescue items become the final item list. -/
theorem C1_amended {α : Type} (batchSize total rescueTotal : Nat)
    (h : 0 < total) (ritems : List α) (rest : List (Response α)) :
    (fetch_all_books_for_author batchSize
      (Response.ok total [] :: Response.ok rescueTotal ritems :: rest)).totalRequestsMade = 1 ∧
    (fetch_all_books_for_author batchSize
      (Response.ok total [] :: Response.ok rescueTotal ritems :: rest)).requestUrls
      = [(0, batchSize), (0, total)] ∧
    (fetch_all_books_for_author batchSize
      (Response.ok total [] :: Response.ok rescueTotal ritems :: rest)).items = ritems := by
  have ht : total ≠ 0 := Nat.pos_iff_ne_zero.mp h
  refine ⟨?_, ?_, ?_⟩ <;>
    simp [fetch_all_books_for_author, fetchGo, rescueItems, ht]

/-- Claim C1, witness for the amended theorem at a concrete run. -/
theorem C1_amended_witness :
    (0 : Nat) < 7 ∧
    ((fetch_all_books_for_author 20
      (Response.ok 7 [] :: Response.ok 7 [9, 8, 9] :: [])).totalRequestsMade = 1 ∧
    (fetch_all_books_for_author 20
      (Response.ok 7 [] :: Response.ok 7 [9, 8, 9] :: [])).requestUrls
      = [(0, 20), (0, 7)] ∧
    (fetch_all_books_for_author 20
      (Response.ok 7 [] :: Response.ok 7 [9, 8, 9] :: ([] : List (Response Nat)))).items = [9, 8, 9]) :=
  ⟨by decide, C1_amended 20 7 7 (by decide) [9, 8, 9] []⟩

/-- Claim C2: for every page whose item list is empty while its
advertised total is positive, the pagination loop issues exactly one
additional request — the rescue, at the same offset with the advertised
total as the requested page size — appends whatever items the rescue
returns (possibly none, also on transport failure) to the accumulator,
and terminates immediately: the final state is returned with the request
log extended by exactly the page request and the rescue request, with no
further page requests. -/
theorem C2_rescue_invariant {α : Type} (batchSize total : Nat)
    (h : 0 < total) (rest : List (Response α)) (allItems : List α)
    (startIndex requestCount : Nat) (requestUrls : List (Nat × Nat))
    (initTot : Nat) :
    fetchGo batchSize (Response.ok total [] :: rest) allItems startIndex
        requestCount requestUrls initTot =
      ⟨allItems ++ rescueItems rest, requestCount + 1,
       requestUrls ++ [(startIndex, batchSize), (startIndex, total)],
       if requestCount + 1 = 1 then total else initTot⟩ := by
  have ht : total ≠ 0 := Nat.pos_iff_ne_zero.mp h
  simp [fetchGo, ht]

/-- Claim C2, witness at a concrete state: an empty second page with
advertised total 5, whose rescue fails. -/
theorem C2_witness :
    (0 : Nat) < 5 ∧
    fetchGo 20 (Response.ok 5 [] :: [Response.fail]) [1, 2] 20 1 [(0, 20)] 5 =
      ⟨[1, 2] ++ rescueItems [Response.fail], 1 + 1,
       [(0, 20)] ++ [(20, 20), (20, 5)],
       if 1 + 1 = 1 then 5 else 5⟩ :=
  ⟨by decide, C2_rescue_invariant 20 5 (by decide) [Response.fail] [1, 2] 20 1 [(0, 20)] 5⟩

/-- Claim C3: when the first page advertises a total of 0 the loop stops
at once — the ConsolidatedResult has an empty item list and a request
count of 1, whatever the page payload or later responses would hold. -/
theorem C3_zero_total {α : Type} (batchSize : Nat) (pageItems : List α)
    (rest : List (Response α)) :
    (fetch_all_books_for_author batchSize
      (Response.ok 0 pageItems :: rest)).items = [] ∧
    (fetch_all_books_for_author batchSize
      (Response.ok 0 pageItems :: rest)).totalRequestsMade = 1 := by
  constructor <;> rfl

/-- Claim C4: a page returning fewer items than the requested page size
ends the run — whatever the advertised total, the loop performs no
further iteration (the request count grows by exactly one, and the
request log grows by that page request alone, or by the page request
plus the same-offset rescue when the page was empty with a positive
total).  In particular a first page of 20 items (advertised total 45)
is followed by one request at offset 20, and a second page of 5 items
ends the run with 25 items and requestCount 2. -/
theorem C4_partial_page {α : Type} (batchSize total : Nat)
    (pageItems : List α) (rest : List (Response α)) (allItems : List α)
    (startIndex requestCount : Nat) (requestUrls : List (Nat × Nat))
    (initTot : Nat) (hlt : pageItems.length < batchSize) :
    ((fetchGo batchSize (Response.ok total pageItems :: rest) allItems
        startIndex requestCount requestUrls initTot).requestCount
        = requestCount + 1 ∧
     ((fetchGo batchSize (Response.ok total pageItems :: rest) allItems
        startIndex requestCount requestUrls initTot).requestUrls
        = requestUrls ++ [(startIndex, batchSize)] ∨
      (fetchGo batchSize (Response.ok total pageItems :: rest) allItems
        startIndex requestCount requestUrls initTot).requestUrls
        = requestUrls ++ [(startIndex, batchSize), (startIndex, total)])) ∧
    ((fetch_all_books_for_author 20
        [Response.ok 45 (List.range 20), Response.ok 45 (List.range 5)]).items.length = 25 ∧
     (fetch_all_books_for_author 20
        [Response.ok 45 (List.range 20), Response.ok 45 (List.range 5)]).totalRequestsMade = 2 ∧
     (fetch_all_books_for_author 20
        [Response.ok 45 (List.range 20), Response.ok 45 (List.range 5)]).requestUrls
        = [(0, 20), (20, 20)]) := by
  constructor
  · by_cases h0 : total = 0
    · subst h0
      exact ⟨rfl, Or.inl rfl⟩
    · by_cases he : pageItems.length = 0
      · refine ⟨?_, Or.inr ?_⟩ <;> simp [fetchGo, h0, he]
      · refine ⟨?_, Or.inl ?_⟩ <;> simp [fetchGo, h0, he, hlt]
  · refine ⟨rfl, rfl, rfl⟩

/-- Claim C4, witness at a concrete state: a page of 2 items with page
size 20 ends the run. -/
theorem C4_witness :
    ([3, 4] : List Nat).length < 20 ∧
    (((fetchGo 20 (Response.ok 9 [3, 4] :: []) ([] : List Nat) 0 0 [] 0).requestCount = 0 + 1 ∧
     ((fetchGo 20 (Response.ok 9 [3, 4] :: []) ([] : List Nat) 0 0 [] 0).requestUrls
        = [] ++ [(0, 20)] ∨
      (fetchGo 20 (Response.ok 9 [3, 4] :: []) ([] : List Nat) 0 0 [] 0).requestUrls
        = [] ++ [(0, 20), (0, 9)])) ∧
    ((fetch_all_books_for_author 20
        [Response.ok 45 (List.range 20), Response.ok 45 (List.range 5)]).items.length = 25 ∧
     (fetch_all_books_for_author 20
        [Response.ok 45 (List.range 20), Response.ok 45 (List.range 5)]).totalRequestsMade = 2 ∧
     (fetch_all_books_for_author 20
        [Response.ok 45 (List.range 20), Response.ok 45 (List.range 5)]).requestUrls
        = [(0, 20), (20, 20)])) :=
  ⟨by decide, C4_partial_page 20 9 [3, 4] [] [] 0 0 [] 0 (by decide)⟩

/-!
Part 2: the `GoogleBooksToZoteroParser` pipeline from `parser_test.py`.
Strings are handled through their character lists.  Character-class and
case-mapping helpers model the Python `str`/`re` behaviour (which is
Unicode-aware) on the Basic Latin and Latin-1 ranges, the ranges the
repository's data exercises.
-/

/-- Model of Python `str.lower()` per character, on the Basic Latin and
Latin-1 ranges: `A`-`Z` and `À`-`Þ` (except `×`) shift down by 32
codepoints; everything else is unchanged.  (No Latin-1 character has a
multi-character lowercase form.) -/
def pyLowerChar (c : Char) : Char :=
  if 65 ≤ c.toNat ∧ c.toNat ≤ 90 then Char.ofNat (c.toNat + 32)
  else if 192 ≤ c.toNat ∧ c.toNat ≤ 222 ∧ c.toNat ≠ 215 then Char.ofNat (c.toNat + 32)
  else c

/-- Model of Python `str.upper()` per character, on the Basic Latin and
Latin-1 ranges: `a`-`z` and `à`-`þ` (except `÷`) shift up by 32
codepoints, `ÿ` maps to `Ÿ` (U+0178) and `µ` to `Μ` (U+039C); the
multi-character case `ß` is handled at the string level. -/
def pyUpperChar (c : Char) : Char :=
  if 97 ≤ c.toNat ∧ c.toNat ≤ 122 then Char.ofNat (c.toNat - 32)
  else if 224 ≤ c.toNat ∧ c.toNat ≤ 254 ∧ c.toNat ≠ 247 then Char.ofNat (c.toNat - 32)
  else if c.toNat = 255 then Char.ofNat 376
  else if c.toNat = 181 then Char.ofNat 924
  else c

/-- Model of Python `str.upper()` on a character list; `ß` uppercases to
the two-character string `SS`. -/
def pyUpperChars : List Char → List Char
  | [] => []
  | c :: cs =>
    if c.toNat = 223 then 'S' :: 'S' :: pyUpperChars cs
    else pyUpperChar c :: pyUpperChars cs

/-- Model of Python `str.upper()`. -/
def pyUpper (s : String) : String := String.mk (pyUpperChars s.toList)

/-- Model of Python `str.lower()`. -/
def pyLower (s : String) : String := String.mk (s.toList.map pyLowerChar)

/-- Model of the Python regex class `\s` (and the `str.split()`
whitespace set) on the Basic Latin and Latin-1 ranges: space, `\t`,
`\n`, `\r`, `\x0b`, `\x0c`, the file/group/record/unit separators
`\x1c`-`\x1f`, `\x85` and `\xa0`. -/
def pyIsSpace (c : Char) : Bool :=
  c = ' ' || c = '\t' || c = '\n' || c = '\r' ||
  c.toNat = 11 || c.toNat = 12 ||
  (28 ≤ c.toNat && c.toNat ≤ 31) || c.toNat = 133 || c.toNat = 160

/-- Model of the Python regex class `\w` (Unicode word character) on the
Basic Latin and Latin-1 ranges: ASCII alphanumerics, the underscore,
`ª`, `µ`, `º`, and the Latin-1 letters `À`-`ÿ` except `×` and `÷`.  In
particular accented letters such as `í` are word characters. -/
def pyIsWordChar (c : Char) : Bool :=
  c.isAlphanum || c = '_' ||
  c.toNat = 170 || c.toNat = 181 || c.toNat = 186 ||
  (192 ≤ c.toNat && c.toNat ≤ 255 && !(c.toNat = 215) && !(c.toNat = 247))

/-- Model of `re.sub(r'[-\s]+', '_', slug)`: each maximal run of hyphens
and whitespace characters is replaced by a single underscore.  The flag
records whether the previous character belonged to such a run. -/
def collapseDashSpace : Bool → List Char → List Char
  | _, [] => []
  | inRun, c :: cs =>
    if pyIsSpace c || c = '-' then
      if inRun then collapseDashSpace true cs
      else '_' :: collapseDashSpace true cs
    else c :: collapseDashSpace false cs

/-- Model of Python `slug.strip('_')`: drop leading and trailing
underscores. -/
def stripUnderscores (l : List Char) : List Char :=
  ((l.dropWhile (fun c => c = '_')).reverse.dropWhile (fun c => c = '_')).reverse

/-- Model of `create_title_slug` (`parser_test.py` lines 116-138):
lowercase the title, replace each space by an underscore, delete the
characters matching `[^\w\s-]`, collapse each run of hyphens/whitespace
to one underscore, strip leading/trailing underscores, then truncate to
100 characters. -/
def create_title_slug (title : String) : String :=
  if title = "" then ""
  else
    let s1 := title.toList.map pyLowerChar
    let s2 := s1.map (fun c => if c = ' ' then '_' else c)
    let s3 := s2.filter (fun c => pyIsWordChar c || pyIsSpace c || c = '-')
    let s4 := collapseDashSpace false s3
    let s5 := stripUnderscores s4
    let s6 := if s5.length > 100 then s5.take 100 else s5
    String.mk s6

/-- Model of a Google Books volume as read by `parser_test.py`, typed
with optional fields standing for possibly-absent JSON keys.  The fields
are those consulted by the claims under verification; the remaining
columns of the source record (description, image links, page count
output, ...) are mapped independently and left out of the model.
`pdfDownloadLink = some s` models `'downloadLink' in pdf_info`;
`pdfIsAvailable` models `pdf_info.get('isAvailable', False)`. -/
structure RawItem where
  id : String
  title : String
  subtitle : String
  authors : List String
  publishedDate : String
  publisher : String
  language : String
  pageCount : Option Nat
  industryIdentifiers : List (String × String)
  infoLink : String
  pdfIsAvailable : Bool
  pdfDownloadLink : Option String
  saleability : String
  buyLink : Option String
deriving DecidableEq

/-- Model of `should_include_item` (`parser_test.py` lines 211-233):
include iff (the PDF availability flag is set and a `downloadLink` key
is present) or `saleability.upper() == 'FREE'`. -/
def should_include_item (item : RawItem) : Bool :=
  (item.pdfIsAvailable && item.pdfDownloadLink.isSome) ||
    (pyUpper item.saleability == "FREE")

/-- Model of `is_match` (`parser_test.py` lines 235-254): an empty
target author matches everything; otherwise the target must appear
verbatim in the item's author list. -/
def is_match (item : RawItem) (targetAuthor : String) : Bool :=
  if targetAuthor = "" then true
  else item.authors.contains targetAuthor

/-- Model of `get_url` (`parser_test.py` lines 140-174).  Case 1: PDF
available with a download link — return it.  Case 2: PDF flag false and
saleability FREE — synthesize the fixed-template download URL from the
title slug and volume id, falling back to `buyLink` then `infoLink` when
either is empty.  Case 3: otherwise return `infoLink`. -/
def get_url (item : RawItem) : String :=
  if item.pdfIsAvailable && item.pdfDownloadLink.isSome then
    item.pdfDownloadLink.getD ""
  else if !item.pdfIsAvailable && (pyUpper item.saleability == "FREE") then
    let titleSlug := create_title_slug item.title
    if titleSlug != "" && item.id != "" then
      "https://books.google.com/books/download/" ++ titleSlug ++ ".pdf?id="
        ++ item.id ++ "&output=pdf"
    else
      item.buyLink.getD item.infoLink
  else
    item.infoLink

/-- Helper for modelling Python's `needle in haystack` on strings: does
`needle` occur as a contiguous infix of the list? -/
def hasInfix (needle : List Char) : List Char → Bool
  | [] => needle.isEmpty
  | c :: cs => needle.isPrefixOf (c :: cs) || hasInfix needle cs

/-- Model of Python `str.split()` (split on whitespace runs, no empty
parts), with the current in-progress word accumulated in reverse. -/
def pySplitAux : List Char → List Char → List (List Char)
  | [], cur => if cur = [] then [] else [cur.reverse]
  | c :: cs, cur =>
    if pyIsSpace c then
      if cur = [] then pySplitAux cs []
      else cur.reverse :: pySplitAux cs []
    else pySplitAux cs (c :: cur)

/-- Model of Python `str.split()` on a character list. -/
def pySplit (l : List Char) : List (List Char) := pySplitAux l []

/-- Model of the per-name body of `format_authors` (`parser_test.py`
lines 67-79): a name containing `', '` is passed through; otherwise the
name is split on whitespace and, with at least two parts, re-ordered as
`last, first-names`; a single part is passed through. -/
def formatAuthorName (author : String) : String :=
  if hasInfix [',', ' '] author.toList then author
  else
    let parts := pySplit author.toList
    if 2 ≤ parts.length then
      String.mk ((parts.getLast?).getD []) ++ ", " ++
        String.intercalate " " ((parts.dropLast).map String.mk)
    else author

/-- Model of `format_authors` (`parser_test.py` lines 61-81): format
each name and join with `'; '`; an empty list gives the empty string. -/
def format_authors (authors : List String) : String :=
  if authors = [] then ""
  else String.intercalate "; " (authors.map formatAuthorName)

/-- Model of Python's `a or b` on strings (empty is falsy). -/
def pyOrString (a b : String) : String := if a = "" then b else a

/-- Model of `extract_isbn` (`parser_test.py` lines 83-98): scan the
identifier list remembering the last ISBN_13 and ISBN_10 values, then
return `isbn_13 or isbn_10 or ""`. -/
def extract_isbn (industryIdentifiers : List (String × String)) : String :=
  let pick := industryIdentifiers.foldl
    (fun (acc : Option String × Option String) idr =>
      if idr.1 = "ISBN_13" then (some idr.2, acc.2)
      else if idr.1 = "ISBN_10" then (acc.1, some idr.2)
      else acc) (none, none)
  pyOrString (pick.1.getD "") (pick.2.getD "")

/-- Model of `extract_year` (`parser_test.py` lines 100-114): the
segment of the date before the first hyphen, kept only when it is
exactly four digits. -/
def extract_year (publishedDate : String) : String :=
  if publishedDate = "" then ""
  else
    let yearPart := publishedDate.toList.takeWhile (fun c => c ≠ '-')
    if yearPart.all Char.isDigit ∧ yearPart.length = 4 then String.mk yearPart
    else ""

/-- Model of the Zotero row built by `parse_item` (`parser_test.py`
lines 256-386), restricted to the columns the claims consult plus the
simple pass-through columns; every other column of the 85-column schema
is a constant (mostly empty) string.  `dateAdded`/`dateModified` take
the wall-clock timestamp as the `now` parameter. -/
structure BibliographicRecord where
  key : String
  itemType : String
  publicationYear : String
  author : String
  title : String
  isbn : String
  url : String
  date : String
  dateAdded : String
  dateModified : String
  numPages : String
  publisher : String
  language : String
  archive : String
  extra : String
deriving DecidableEq

/-- Model of `parse_item`: map one included item to its record. -/
def parse_item (now : String) (item : RawItem) : BibliographicRecord :=
  let fullTitle :=
    if item.subtitle ≠ "" then item.title ++ ": " ++ item.subtitle else item.title
  let year := extract_year item.publishedDate
  { key := ""
    itemType := "book"
    publicationYear := year
    author := format_authors item.authors
    title := fullTitle
    isbn := extract_isbn item.industryIdentifiers
    url := get_url item
    date := year
    dateAdded := now
    dateModified := now
    numPages := match item.pageCount with | some n => toString n | none => ""
    publisher := item.publisher
    language := item.language
    archive := "Google Books"
    extra := "Venezuela" }

/-- Model of the classification loop of `parse_json_file`
(`parser_test.py` lines 406-457), returning the matches list, the
non-matches list and the excluded count.  A `none` element models a list
entry whose processing raises (the `except` branch, lines 452-455),
which is counted as excluded. -/
def parse_json_items (now targetAuthor : String) :
    List (Option RawItem) →
      List BibliographicRecord × List BibliographicRecord × Nat
  | [] => ([], [], 0)
  | oitem :: rest =>
    let r := parse_json_items now targetAuthor rest
    match oitem with
    | none => (r.1, r.2.1, r.2.2 + 1)
    | some item =>
      if should_include_item item then
        let record := parse_item now item
        if is_match item targetAuthor then (record :: r.1, r.2.1, r.2.2)
        else (r.1, record :: r.2.1, r.2.2)
      else (r.1, r.2.1, r.2.2 + 1)

/-- Supporting item for claim C6: saleability FREE, PDF flag true but no
download link; included by the predicate, yet `get_url` returns the
info link. -/
def freeNoLinkItem : RawItem :=
  { id := "x", title := "Flora", subtitle := "", authors := []
    publishedDate := "", publisher := "", language := "", pageCount := none
    industryIdentifiers := [], infoLink := "https://example.org/info"
    pdfIsAvailable := true, pdfDownloadLink := none
    saleability := "FREE", buyLink := none }

/-- Claim C6, counterexample.  The claim's priority order would
synthesize a download URL for an included item with licensing status
"free" and no usable PDF link; but for `freeNoLinkItem` (PDF flag true,
no download link, saleability FREE) the code returns the generic info
link, because synthesis additionally requires the PDF flag to be false. -/
theorem C6_counterexample :
    should_include_item freeNoLinkItem = true ∧
    create_title_slug freeNoLinkItem.title = "flora" ∧
    get_url freeNoLinkItem = "https://example.org/info" ∧
    get_url freeNoLinkItem
      ≠ "https://books.google.com/books/download/flora.pdf?id=x&output=pdf" := by
  refine ⟨by decide, by decide, by decide, by decide⟩

/-- Claim C6, amended.  URL resolution for included items: a download
link present together with a true PDF flag is used verbatim; when the
PDF flag is false and licensing status is "free", a URL is synthesized
from the fixed host template, the title slug and the catalog identifier,
falling back to the purchase link and then the generic info link when
the slug or identifier is unavailable; in every other case — including a
free item whose PDF flag is true but which lacks a download link — the
generic info link is used. -/
theorem C6_amended (item : RawItem) :
    (∀ link : String, item.pdfIsAvailable = true →
      item.pdfDownloadLink = some link → get_url item = link) ∧
    (item.pdfIsAvailable = false → pyUpper item.saleability = "FREE" →
      (create_title_slug item.title ≠ "" → item.id ≠ "" →
        get_url item = "https://books.google.com/books/download/"
          ++ create_title_slug item.title ++ ".pdf?id=" ++ item.id ++ "&output=pdf") ∧
      ((create_title_slug item.title = "" ∨ item.id = "") →
        get_url item = item.buyLink.getD item.infoLink)) ∧
    (item.pdfIsAvailable = true → item.pdfDownloadLink = none →
      get_url item = item.infoLink) ∧
    (item.pdfIsAvailable = false → pyUpper item.saleability ≠ "FREE" →
      get_url item = item.infoLink) := by
  refine ⟨?_, ?_, ?_, ?_⟩
  · intro link hav hlink
    simp [get_url, hav, hlink]
  · intro hav hfree
    constructor
    · intro hslug hid
      simp [get_url, hav, hfree, hslug, hid]
    · intro hor
      rcases hor with h | h <;> simp [get_url, hav, hfree, h]
  · intro hav hnone
    simp [get_url, hav, hnone]
  · intro hav hnfree
    simp [get_url, hav, hnfree]

/-- Supporting item for the C6 witness: PDF available with a download
link. -/
def withLinkItem : RawItem :=
  { id := "y", title := "T", subtitle := "", authors := []
    publishedDate := "", publisher := "", language := "", pageCount := none
    industryIdentifiers := [], infoLink := "https://example.org/i"
    pdfIsAvailable := true, pdfDownloadLink := some "https://example.org/dl.pdf"
    saleability := "NOT_FOR_SALE", buyLink := none }

/-- Claim C6, witness: the amended theorem applied to `withLinkItem`. -/
theorem C6_amended_witness :
    withLinkItem.pdfIsAvailable = true ∧
    withLinkItem.pdfDownloadLink = some "https://example.org/dl.pdf" ∧
    get_url withLinkItem = "https://example.org/dl.pdf" :=
  ⟨rfl, rfl, (C6_amended withLinkItem).1 "https://example.org/dl.pdf" rfl rfl⟩

/-- Claim C7, counterexample.  The slug of "Flora del País" is
"flora_del_país", not "flora_del_pais": the Python regex `\w` is
Unicode-aware, so the accented letter is a word character and is kept,
not stripped. -/
theorem C7_counterexample :
    create_title_slug "Flora del País" = "flora_del_país" ∧
    create_title_slug "Flora del País" ≠ "flora_del_pais" := by
  refine ⟨by decide, by decide⟩

/-- Supporting item for claim C7: the Example-4 item (PDF flag false,
saleability FREE, title "Flora del País", id "abc123"). -/
def floraItem : RawItem :=
  { id := "abc123", title := "Flora del País", subtitle := "", authors := []
    publishedDate := "", publisher := "", language := "", pageCount := none
    industryIdentifiers := [], infoLink := ""
    pdfIsAvailable := false, pdfDownloadLink := none
    saleability := "FREE", buyLink := none }

/-- Claim C7, amended.  The slug is the title lowercased with each space
replaced by an underscore, characters other than Unicode word
characters, whitespace and hyphens removed (accented letters are word
characters and are kept), runs of hyphens and remaining whitespace
collapsed to single underscores, leading/trailing underscores trimmed,
then truncated to 100 characters; so the slug never exceeds 100
characters, and for the Example-4 item the synthesized URL uses slug
"flora_del_país" (accent preserved) and id "abc123". -/
theorem C7_amended :
    (∀ title : String, (create_title_slug title).length ≤ 100) ∧
    create_title_slug "Flora del País" = "flora_del_país" ∧
    get_url floraItem =
      "https://books.google.com/books/download/flora_del_país.pdf?id=abc123&output=pdf" := by
  refine ⟨?_, by decide, by decide⟩
  intro title
  have key : ∀ l : List Char, (if l.length > 100 then l.take 100 else l).length ≤ 100 := by
    intro l
    split
    · rw [List.length_take]
      omega
    · omega
  unfold create_title_slug
  by_cases h : title = ""
  · simp [h]
  · simp only [if_neg h, String.length_mk]
    exact key _

/-- Claim C8, counterexample.  Pass-through requires a comma followed by
a space, not merely a comma: "Gallegos,R. M" contains a comma yet is not
passed through — the code splits it on whitespace and reorders it to
"M, Gallegos,R.". -/
theorem C8_counterexample :
    format_authors ["Gallegos,R. M"] = "M, Gallegos,R." ∧
    format_authors ["Gallegos,R. M"] ≠ "Gallegos,R. M" := by
  refine ⟨by decide, by decide⟩

/-- Claim C8, amended.  A name containing `', '` (comma followed by a
space) is passed through unchanged; otherwise the last
whitespace-delimited token becomes the surname and the remaining tokens
the given names; multiple formatted names are joined with `'; '`.
"Díaz Sánchez, Ramón" is unchanged and "Rómulo Gallegos" becomes
"Gallegos, Rómulo". -/
theorem C8_amended :
    (∀ author : String, hasInfix [',', ' '] author.toList = true →
      formatAuthorName author = author) ∧
    format_authors ["Díaz Sánchez, Ramón"] = "Díaz Sánchez, Ramón" ∧
    format_authors ["Rómulo Gallegos"] = "Gallegos, Rómulo" ∧
    format_authors ["Rómulo Gallegos", "Díaz Sánchez, Ramón"]
      = "Gallegos, Rómulo; Díaz Sánchez, Ramón" := by
  refine ⟨?_, by decide, by decide, by decide⟩
  intro author h
  have h2 : hasInfix [',', ' '] author.data = true := h
  simp [formatAuthorName, h2]

/-- Claim C8, witness: the amended pass-through rule applied to the
already-formatted name of Example 5. -/
theorem C8_witness :
    hasInfix [',', ' '] ("Díaz Sánchez, Ramón").toList = true ∧
    formatAuthorName "Díaz Sánchez, Ramón" = "Díaz Sánchez, Ramón" :=
  ⟨by decide, C8_amended.1 "Díaz Sánchez, Ramón" (by decide)⟩

/-- Claim C9: when the extracted target author is the empty string the
match predicate accepts every item, so the classification loop produces
no non-matches: every included item lands in the matches list, and the
matches plus the excluded count exhaust the input. -/
theorem C9_empty_target (now : String) (oitems : List (Option RawItem)) :
    (∀ item : RawItem, is_match item "" = true) ∧
    (parse_json_items now "" oitems).2.1 = [] ∧
    (parse_json_items now "" oitems).1.length
      + (parse_json_items now "" oitems).2.2 = oitems.length := by
  refine ⟨fun item => rfl, ?_⟩
  induction oitems with
  | nil => exact ⟨rfl, rfl⟩
  | cons o rest ih =>
    obtain ⟨ih1, ih2⟩ := ih
    cases o with
    | none =>
      refine ⟨?_, ?_⟩ <;> simp [parse_json_items, ih1, ih2] <;> omega
    | some item =>
      by_cases hi : should_include_item item = true
      · refine ⟨?_, ?_⟩ <;>
          simp [parse_json_items, hi, is_match, ih1, ih2] <;> omega
      · refine ⟨?_, ?_⟩ <;>
          simp [parse_json_items, hi, ih1, ih2] <;> omega

/-- Helper: packing a valid codepoint and unpacking it round-trips. -/
theorem toNat_ofNat_valid {n : Nat} (h : n < 55296) : (Char.ofNat n).toNat = n := by
  have hv : n.isValidChar := Or.inl h
  simp [Char.ofNat, hv, Char.ofNatAux, Char.toNat, UInt32.toNat]

/-- Helper: characters with equal codepoints are equal. -/
theorem char_eq_of_toNat_eq {c d : Char} (h : c.toNat = d.toNat) : c = d := by
  rw [← Char.ofNat_toNat c, h, Char.ofNat_toNat]

/-- Helper: for an ASCII uppercase codepoint `m`, the characters whose
model uppercase is `m` are exactly those with codepoint `m` or `m + 32`. -/
theorem pyUpperChar_eq_ofNat_iff (c : Char) (m : Nat) (h65 : 65 ≤ m)
    (h90 : m ≤ 90) :
    pyUpperChar c = Char.ofNat m ↔ (c.toNat = m + 32 ∨ c.toNat = m) := by
  have hm : (Char.ofNat m).toNat = m := toNat_ofNat_valid (by omega)
  constructor
  · intro h
    unfold pyUpperChar at h
    split_ifs at h with h1 h2 h3 h4
    · have hh := congrArg Char.toNat h
      rw [toNat_ofNat_valid (by omega), hm] at hh
      omega
    · have hh := congrArg Char.toNat h
      rw [toNat_ofNat_valid (by omega), hm] at hh
      omega
    · have hh := congrArg Char.toNat h
      rw [toNat_ofNat_valid (by omega), hm] at hh
      omega
    · have hh := congrArg Char.toNat h
      rw [toNat_ofNat_valid (by omega), hm] at hh
      omega
    · have hh := congrArg Char.toNat h
      rw [hm] at hh
      omega
  · intro h
    rcases h with h | h
    · unfold pyUpperChar
      rw [if_pos ⟨by omega, by omega⟩, h,
        show m + 32 - 32 = m from by omega]
    · unfold pyUpperChar
      rw [if_neg (by omega), if_neg (by omega), if_neg (by omega),
          if_neg (by omega)]
      exact char_eq_of_toNat_eq (by rw [hm]; exact h)

/-- Helper: for an ASCII uppercase codepoint `m`, the characters whose
model lowercase is `m + 32` are exactly those with codepoint `m` or
`m + 32`. -/
theorem pyLowerChar_eq_ofNat_iff (c : Char) (m : Nat) (h65 : 65 ≤ m)
    (h90 : m ≤ 90) :
    pyLowerChar c = Char.ofNat (m + 32) ↔ (c.toNat = m + 32 ∨ c.toNat = m) := by
  have hm : (Char.ofNat (m + 32)).toNat = m + 32 := toNat_ofNat_valid (by omega)
  constructor
  · intro h
    unfold pyLowerChar at h
    split_ifs at h with h1 h2
    · have hh := congrArg Char.toNat h
      rw [toNat_ofNat_valid (by omega), hm] at hh
      omega
    · have hh := congrArg Char.toNat h
      rw [toNat_ofNat_valid (by omega), hm] at hh
      omega
    · have hh := congrArg Char.toNat h
      rw [hm] at hh
      omega
  · intro h
    rcases h with h | h
    · unfold pyLowerChar
      rw [if_neg (by omega), if_neg (by omega)]
      exact char_eq_of_toNat_eq (by rw [hm]; exact h)
    · unfold pyLowerChar
      rw [if_pos ⟨by omega, by omega⟩, h]

/-- Helper: uppercasing a character to an ASCII uppercase `m` is the
same condition as lowercasing it to `m + 32`. -/
theorem upper_lower_char_bridge (c : Char) (m : Nat) (h65 : 65 ≤ m)
    (h90 : m ≤ 90) :
    pyUpperChar c = Char.ofNat m ↔ pyLowerChar c = Char.ofNat (m + 32) := by
  rw [pyUpperChar_eq_ofNat_iff c m h65 h90, pyLowerChar_eq_ofNat_iff c m h65 h90]

/-- Helper: against a target word of ASCII uppercase codepoints (none of
them `S`, so the `ß` expansion can never fit), uppercasing a string to
the target word is equivalent to lowercasing it to the word shifted into
lowercase. -/
theorem pyUpperChars_eq_iff (l : List Char) (ms : List Nat)
    (hms : ∀ m ∈ ms, 65 ≤ m ∧ m ≤ 90 ∧ m ≠ 83) :
    pyUpperChars l = ms.map Char.ofNat ↔
      l.map pyLowerChar = ms.map (fun m => Char.ofNat (m + 32)) := by
  have hcons : ∀ (c : Char) (cs : List Char), pyUpperChars (c :: cs)
      = if c.toNat = 223 then 'S' :: 'S' :: pyUpperChars cs
        else pyUpperChar c :: pyUpperChars cs := fun c cs => rfl
  induction l generalizing ms with
  | nil =>
    cases ms with
    | nil => simp [pyUpperChars]
    | cons m ms' => simp [pyUpperChars]
  | cons c cs ih =>
    by_cases hc : c.toNat = 223
    · cases ms with
      | nil =>
        rw [hcons c cs, if_pos hc]
        simp
      | cons m ms' =>
        obtain ⟨hm65, hm90, hm83⟩ := hms m (by simp)
        rw [hcons c cs, if_pos hc]
        constructor
        · intro h
          exfalso
          simp only [List.map_cons, List.cons.injEq] at h
          have hS := congrArg Char.toNat h.1
          rw [toNat_ofNat_valid (show m < 55296 by omega)] at hS
          have h83 : ('S' : Char).toNat = 83 := rfl
          omega
        · intro h
          exfalso
          simp only [List.map_cons, List.cons.injEq] at h
          have hhead := h.1
          rw [pyLowerChar_eq_ofNat_iff c m hm65 hm90] at hhead
          omega
    · cases ms with
      | nil =>
        rw [hcons c cs, if_neg hc]
        simp
      | cons m ms' =>
        obtain ⟨hm65, hm90, -⟩ := hms m (by simp)
        have hrest : ∀ m' ∈ ms', 65 ≤ m' ∧ m' ≤ 90 ∧ m' ≠ 83 :=
          fun m' hm' => hms m' (by simp [hm'])
        rw [hcons c cs, if_neg hc]
        simp only [List.map_cons, List.cons.injEq]
        rw [upper_lower_char_bridge c m hm65 hm90]
        exact and_congr_right (fun _ => ih ms' hrest)

/-- Helper: a string uppercases to "FREE" exactly when it lowercases to
"free" — the code's `saleability.upper() == 'FREE'` test is a
case-insensitive comparison with "free". -/
theorem pyUpper_eq_FREE_iff (s : String) :
    pyUpper s = "FREE" ↔ pyLower s = "free" := by
  have h := pyUpperChars_eq_iff s.data [70, 82, 69, 69] (by decide)
  rw [show (([70, 82, 69, 69] : List Nat).map Char.ofNat)
        = ['F', 'R', 'E', 'E'] from by decide,
      show (([70, 82, 69, 69] : List Nat).map (fun m => Char.ofNat (m + 32)))
        = ['f', 'r', 'e', 'e'] from by decide] at h
  constructor
  · intro hu
    have h1 : pyUpperChars s.data = ['F', 'R', 'E', 'E'] :=
      congrArg String.data hu
    exact congrArg String.mk (h.mp h1)
  · intro hl
    have h1 : s.data.map pyLowerChar = ['f', 'r', 'e', 'e'] :=
      congrArg String.data hl
    exact congrArg String.mk (h.mpr h1)

/-- Helper for claim C5: whether a (possibly failing) input entry passes
the inclusion predicate. -/
def includedEntry : Option RawItem → Bool
  | some item => should_include_item item
  | none => false

/-- Claim C5: the inclusion predicate holds iff (the downloadable-PDF
flag is true and a download link is present in the PDF access metadata)
or the sale status equals "free" case-insensitively; and the
classification loop produces records exactly for the entries passing the
predicate — items failing it are excluded and yield no record. -/
theorem C5_inclusion_predicate :
    (∀ item : RawItem, should_include_item item = true ↔
      ((item.pdfIsAvailable = true ∧ item.pdfDownloadLink.isSome = true) ∨
        pyLower item.saleability = "free")) ∧
    (∀ now targetAuthor : String, ∀ oitems : List (Option RawItem),
      (parse_json_items now targetAuthor oitems).1.length
        + (parse_json_items now targetAuthor oitems).2.1.length
        = (oitems.filter includedEntry).length) := by
  constructor
  · intro item
    unfold should_include_item
    rw [Bool.or_eq_true, Bool.and_eq_true, beq_iff_eq, pyUpper_eq_FREE_iff]
  · intro now targetAuthor oitems
    induction oitems with
    | nil => rfl
    | cons o rest ih =>
      cases o with
      | none => simpa [parse_json_items, includedEntry] using ih
      | some item =>
        by_cases hi : should_include_item item = true
        · by_cases hm : is_match item targetAuthor = true <;>
            simp [parse_json_items, includedEntry, hi, hm] <;> omega
        · simp [parse_json_items, includedEntry, hi]
          exact ih

/-- Claim C10: classification is a partition — for every input list the
number of matched records plus non-matched records plus the excluded
count equals the number of input items (entries whose processing raises
are counted excluded). -/
theorem C10_partition (now targetAuthor : String)
    (oitems : List (Option RawItem)) :
    (parse_json_items now targetAuthor oitems).1.length
      + (parse_json_items now targetAuthor oitems).2.1.length
      + (parse_json_items now targetAuthor oitems).2.2 = oitems.length := by
  induction oitems with
  | nil => rfl
  | cons o rest ih =>
    cases o with
    | none => simp [parse_json_items]; omega
    | some item =>
      by_cases hi : should_include_item item = true
      · by_cases hm : is_match item targetAuthor = true <;>
          simp [parse_json_items, hi, hm] <;> omega
      · simp [parse_json_items, hi]; omega

end GBooks
